import Mathlib

/-!
Shallow embedding of the travel-adviser core (shamim565/travel-adviser).

Conventions of the embedding:
* Python floats are modelled as `ℚ`; `round(x, n)` is modelled with
  round-half-to-even on rationals (CPython's documented mode; binary
  floating-point representation noise is outside the model, and no claim
  exercises a tie value).
* Wall-clock time is modelled as `Nat` seconds; the Django cache is an
  explicit association list from key strings to (payload, expiry) pairs,
  newest binding first, matching `django.core.cache` semantics: `set`
  stores expiry = now + ttl, `get` returns the value while now < expiry.
* Network I/O is modelled by passing in the outcome of the outbound
  request (`Except ReqError Payload`, or an `HttpOutcome` per attempt for
  the retry model); the number of outbound requests a call performs is
  returned explicitly.
* The raw Open-Meteo JSON document is modelled by its one used hourly
  block: the `hourly.time` array and the single requested parallel value
  array (`temperature_2m` or `pm2_5`); absent keys collapse to `[]`
  exactly as `payload.get("hourly") or {}` / `hourly.get(field) or []` do.
* Fallible Python code (the legacy `utils.fetch_weather` aggregation,
  which can raise `TypeError` / `IndexError`) returns `Except PyError`.
-/

namespace TravelAdviser

/-! ### Python rounding and float formatting helpers -/

/-- CPython `round` to an integer: round-half-to-even (banker's rounding).
Computed on the reduced fraction: with `f` the floor and `r` the
(nonnegative) remainder of num/den, a tie is `2r = den`; otherwise round
to the nearer integer. -/
def roundHalfEven (q : ℚ) : ℤ :=
  let f := q.num / (q.den : ℤ)
  let r := q.num % (q.den : ℤ)
  if 2 * r = (q.den : ℤ) then (if f % 2 = 0 then f else f + 1)
  else if 2 * r < (q.den : ℤ) then f else f + 1

/-- Floor of a rational, computed on the reduced fraction (`Int` `/` is
Euclidean division, which floors for the positive denominator). -/
def qfloor (q : ℚ) : ℤ := q.num / (q.den : ℤ)

/-- Python `abs` on a float. -/
def pyAbs (q : ℚ) : ℚ := if q < 0 then -q else q

/-- Python `round(x, 1)`. -/
def round1 (q : ℚ) : ℚ := (roundHalfEven (q * 10) : ℚ) / 10

/-- Python `round(x, 2)`. -/
def round2 (q : ℚ) : ℚ := (roundHalfEven (q * 100) : ℚ) / 100

/-- Two-digit zero padding, as in the format spec `{hour:02d}`. -/
def pad2 (n : Nat) : String :=
  if n < 10 then "0" ++ toString n else toString n

/-- Python `f"{q:.2f}"` for a rational that is an exact multiple of 1/100
(which every output of `round2` is).  The float artifact `-0.00` cannot
arise over `ℚ`. -/
def fmt2 (q : ℚ) : String :=
  let n : ℤ := qfloor (q * 100)
  let s := if n < 0 then "-" else ""
  let m := n.natAbs
  s ++ toString (m / 100) ++ "." ++ pad2 (m % 100)

/-- Python `f"{q}"` (float repr) for a nonnegative rational that is an
exact multiple of 1/10, e.g. `5 ↦ "5.0"`, `12.5 ↦ "12.5"`. -/
def fmt1abs (q : ℚ) : String :=
  let n : ℤ := qfloor (q * 10)
  toString (n / 10) ++ "." ++ toString (n % 10)

/-! ### Coordinate normalization and cache keys
(src/recommendations/services/open_meteo.py, `_norm_coords` / `_cache_key`;
the `precision` parameter is 2 at every call site and is fixed to 2 here). -/

/-- Round coords to reduce cache cardinality (about 1.1 km at 2 dp). -/
def _norm_coords (lat lon : ℚ) : ℚ × ℚ :=
  (round2 lat, round2 lon)

/-- Cache key string `f"{prefix}:{lat_n:.2f},{lon_n:.2f}:{extra}"`. -/
def _cache_key (pre : String) (lat lon : ℚ) (extra : String) : String :=
  pre ++ ":" ++ fmt2 (_norm_coords lat lon).1 ++ "," ++ fmt2 (_norm_coords lat lon).2
    ++ ":" ++ extra

/-- `WEATHER_CACHE_TTL` default (seconds). -/
def WEATHER_CACHE_TTL : Nat := 1800

/-- `AIR_QUALITY_CACHE_TTL` default (seconds). -/
def AIR_QUALITY_CACHE_TTL : Nat := 1800

/-! ### Payload, cache state, fetch functions -/

/-- The used part of a raw Open-Meteo response: `hourly.time` plus the one
requested parallel value array (entries may be JSON null). -/
structure Payload where
  times : List String
  values : List (Option ℚ)
  deriving DecidableEq, Repr

/-- The Django cache: newest binding first; each binding carries its
absolute expiry instant. -/
abbrev CacheState := List (String × Payload × Nat)

/-- `cache.get(key, sentinel)`: a stored entry is returned while
`now < expiry` (Django treats `expiry <= now` as expired). -/
def cacheGet (st : CacheState) (now : Nat) (key : String) : Option Payload :=
  match List.lookup key st with
  | none => none
  | some (p, exp) => if now < exp then some p else none

/-- `cache.set(key, data, timeout=ttl)`: stores with expiry `now + ttl`,
shadowing any older binding. -/
def cacheSet (st : CacheState) (now : Nat) (key : String) (p : Payload) (ttl : Nat) :
    CacheState :=
  (key, p, now + ttl) :: st

/-- Failure of one outbound HTTP attempt: a network-level error, or the
`requests.HTTPError` that `raise_for_status()` raises for a 4xx/5xx
status. -/
inductive ReqError where
  | connectionError
  | httpError (status : Nat)
  deriving DecidableEq, Repr

/-- The weather cache key built inside `fetch_weather`. -/
def wkey (lat lon : ℚ) (forecast_days : Nat) (timezone : String) : String :=
  _cache_key "openmeteo:weather" lat lon ("fd=" ++ toString forecast_days ++ "|tz=" ++ timezone)

/-- The air-quality cache key built inside `fetch_air_quality`. -/
def akey (lat lon : ℚ) (forecast_days : Nat) : String :=
  _cache_key "openmeteo:air_quality" lat lon ("fd=" ++ toString forecast_days)

/-- One un-retried body of `fetch_weather` (open_meteo.py lines 44-75):
return the cached payload if present, otherwise perform the outbound
request (its outcome is the `net` argument), cache a successful response
and return it.  The third component counts outbound requests (0 or 1). -/
def fetch_weather (st : CacheState) (now : Nat) (lat lon : ℚ)
    (forecast_days : Nat) (timezone : String) (net : Except ReqError Payload) :
    Except ReqError Payload × CacheState × Nat :=
  match cacheGet st now (wkey lat lon forecast_days timezone) with
  | some cached => (Except.ok cached, st, 0)
  | none =>
      match net with
      | Except.ok data =>
          (Except.ok data,
            cacheSet st now (wkey lat lon forecast_days timezone) data WEATHER_CACHE_TTL, 1)
      | Except.error e => (Except.error e, st, 1)

/-- One un-retried body of `fetch_air_quality` (open_meteo.py lines 78-107). -/
def fetch_air_quality (st : CacheState) (now : Nat) (lat lon : ℚ)
    (forecast_days : Nat) (net : Except ReqError Payload) :
    Except ReqError Payload × CacheState × Nat :=
  match cacheGet st now (akey lat lon forecast_days) with
  | some cached => (Except.ok cached, st, 0)
  | none =>
      match net with
      | Except.ok data =>
          (Except.ok data,
            cacheSet st now (akey lat lon forecast_days) data AIR_QUALITY_CACHE_TTL, 1)
      | Except.error e => (Except.error e, st, 1)

/-! ### Tenacity retry
`@retry(wait=wait_exponential(multiplier=1, min=1, max=4), stop=stop_after_attempt(3))`.
No `retry=` predicate is given, so tenacity's default applies: every raised
exception is retried.  `stop_after_attempt(3)` ends after the third
attempt, re-raising (wrapped in `RetryError`) the last attempt's
exception.  Wait durations do not affect the result and are not
modelled. -/

/-- The retry loop with `fuel` retries remaining after the current attempt
number `i`; attempt outcomes are supplied by `attempt` (1-indexed).
Returns (number of the final attempt made, its outcome — the error of the
last attempt when all attempts failed). -/
def retryGo (attempt : Nat → Except ReqError Payload) :
    Nat → Nat → Nat × Except ReqError Payload
  | 0, i => (i, attempt i)
  | fuel + 1, i =>
      match attempt i with
      | Except.ok a => (i, Except.ok a)
      | Except.error _ => retryGo attempt fuel (i + 1)

/-- A call through the tenacity decorator with `stop_after_attempt stopAfter`. -/
def tenacityCall (attempt : Nat → Except ReqError Payload) (stopAfter : Nat) :
    Nat × Except ReqError Payload :=
  retryGo attempt (stopAfter - 1) 1

/-- What one outbound attempt can observe. -/
inductive HttpOutcome where
  | netError
  | response (status : Nat) (body : Payload)
  deriving DecidableEq, Repr

/-- One attempt body: `requests.get(...)` followed by
`resp.raise_for_status()`, which raises `HTTPError` for every status in
400..599, 4xx included. -/
def httpAttempt (o : HttpOutcome) : Except ReqError Payload :=
  match o with
  | HttpOutcome.netError => Except.error ReqError.connectionError
  | HttpOutcome.response status body =>
      if 400 ≤ status then Except.error (ReqError.httpError status) else Except.ok body

/-- The decorated fetcher: up to 3 attempts, each observing `outcomes i`. -/
def fetchWithRetry (outcomes : Nat → HttpOutcome) : Nat × Except ReqError Payload :=
  tenacityCall (fun i => httpAttempt (outcomes i)) 3

/-! ### Parsing helpers (open_meteo.py lines 115-166) -/

/-- `_hourly_series`: `list(zip(times, values))` — positional pairing,
truncated to the shorter array. -/
def _hourly_series (p : Payload) : List (String × Option ℚ) :=
  p.times.zip p.values

/-- `hourly_map(payload, field)[k]` as a lookup function: `dict(series)`
keeps the last occurrence of a duplicated key, hence the lookup on the
reversed series.  `some none` means the timestamp is present with a JSON
null reading. -/
def hourly_map (p : Payload) (k : String) : Option (Option ℚ) :=
  List.lookup k (_hourly_series p).reverse

/-- The composed lookup key `f"{d.isoformat()}T{hour:02d}:00"`; the date is
modelled by its ISO string. -/
def needleFor (d : String) (hour : Nat) : String :=
  d ++ "T" ++ pad2 hour ++ ":00"

/-- `value_on_date_at_hour`: `hourly_map(...).get(needle)` — `dict.get`
yields `None` both for an absent key and for a key stored with value
`None`. -/
def value_on_date_at_hour (p : Payload) (d : String) (hour : Nat) : Option ℚ :=
  match hourly_map p (needleFor d hour) with
  | none => none
  | some v => v

/-- `_values_at_hour`: all non-None values whose time ends with `"THH:00"`. -/
def _values_at_hour (p : Payload) (hour : Nat) : List ℚ :=
  (_hourly_series p).filterMap fun tv =>
    if tv.1.endsWith ("T" ++ pad2 hour ++ ":00") then tv.2 else none

/-- Python `t.split("T", 1)[0]`: the prefix of `t` before the first `T`. -/
def dayOf (t : String) : String :=
  (t.splitOn "T").headD ""

/-- Append `v` to the group of `day`, preserving the dict's insertion
order of first occurrence (`defaultdict(list)` semantics). -/
def addToGroup (m : List (String × List ℚ)) (day : String) (v : ℚ) :
    List (String × List ℚ) :=
  match m with
  | [] => [(day, [v])]
  | (d, vs) :: rest =>
      if d = day then (d, vs ++ [v]) :: rest else (d, vs) :: addToGroup rest day v

/-- One step of `_daily_groups`: skip `None` values, otherwise group by
calendar date. -/
def groupStep (m : List (String × List ℚ)) (tv : String × Option ℚ) :
    List (String × List ℚ) :=
  match tv.2 with
  | none => m
  | some v => addToGroup m (dayOf tv.1) v

/-- `_daily_groups`: group (time, value) pairs by `YYYY-MM-DD`, skipping
`None` values. -/
def _daily_groups (s : List (String × Option ℚ)) : List (String × List ℚ) :=
  s.foldl groupStep []

/-- Python `sum` over a list of floats (left fold from 0). -/
def qsum (l : List ℚ) : ℚ :=
  l.foldl (· + ·) 0

/-- `_avg`: `round(sum(nums) / len(nums), 1) if nums else None`. -/
def _avg (nums : List ℚ) : Option ℚ :=
  if nums = [] then none else some (round1 (qsum nums / (nums.length : ℚ)))

/-- `weekly_avg_temperature_at_2pm`: average of all 2 PM `temperature_2m`
values across the forecast window, 1 dp, or None if no data. -/
def weekly_avg_temperature_at_2pm (weather_json : Payload) : Option ℚ :=
  _avg (_values_at_hour weather_json 14)

/-- `weekly_avg_pm25` (open_meteo.py lines 183-197): per-date means of the
valid pm2_5 readings, then the mean of those means, rounded once at the
end. -/
def weekly_avg_pm25 (air_json : Payload) : Option ℚ :=
  let by_day := _daily_groups (_hourly_series air_json)
  let daily_avgs := by_day.filterMap fun g =>
    if g.2 = [] then none else some (qsum g.2 / (g.2.length : ℚ))
  _avg daily_avgs

/-! ### Legacy aggregation in src/recommendations/utils.py
The network part is abstracted away: the functions below receive the
parsed `hourly.time` and value arrays and model only the aggregation that
follows `response.json()`. -/

/-- Python runtime errors the legacy code can raise. -/
inductive PyError where
  | typeError
  | indexError
  deriving DecidableEq, Repr

/-- Helper for Python's substring operator `needle in hay` over char lists. -/
def containsAux (n : List Char) : List Char → Bool
  | [] => n.isEmpty
  | c :: cs => List.isPrefixOf n (c :: cs) || containsAux n cs

/-- Python `needle in hay` on strings. -/
def strContains (needle hay : String) : Bool :=
  containsAux needle.toList hay.toList

/-- `[temps[i] for i, t in enumerate(times) if "14:00" in t]` — note: the
values are NOT filtered for `None`, and `temps[i]` can raise `IndexError`
when the arrays have unequal length. -/
def utils_two_pm_go (temps : List (Option ℚ)) :
    List String → Nat → Except PyError (List (Option ℚ))
  | [], _ => Except.ok []
  | t :: rest, i =>
      if strContains "14:00" t then
        match temps.get? i with
        | none => Except.error PyError.indexError
        | some v =>
            match utils_two_pm_go temps rest (i + 1) with
            | Except.ok vs => Except.ok (v :: vs)
            | Except.error e => Except.error e
      else utils_two_pm_go temps rest (i + 1)

/-- Python `sum` over a list that may contain `None`: the first `None`
encountered raises `TypeError` (`0 + None`). -/
def pySumOpt (l : List (Option ℚ)) : Except PyError ℚ :=
  l.foldl
    (fun acc v =>
      match acc, v with
      | Except.error e, _ => Except.error e
      | Except.ok s, some x => Except.ok (s + x)
      | Except.ok _, none => Except.error PyError.typeError)
    (Except.ok 0)

/-- The aggregation inside `utils.fetch_weather` (utils.py lines 40-47):
collect the 2 PM entries (missing values included!), then
`round(sum/len, 1) if two_pm_temps else None`. -/
def utils_weather_agg (times : List String) (temps : List (Option ℚ)) :
    Except PyError (Option ℚ) :=
  match utils_two_pm_go temps times 0 with
  | Except.error e => Except.error e
  | Except.ok two_pm =>
      if two_pm = [] then Except.ok none
      else
        match pySumOpt two_pm with
        | Except.error e => Except.error e
        | Except.ok s => Except.ok (some (round1 (s / (two_pm.length : ℚ))))

/-- The aggregation inside `utils.fetch_air_quality` (utils.py lines
74-95): group non-None pm2.5 values by date, average each date, then
`round(sum(daily_averages)/len(daily_averages), 1)` if any, else None. -/
def utils_air_quality_agg (times : List String) (pm25s : List (Option ℚ)) :
    Option ℚ :=
  let daily_data := _daily_groups (times.zip pm25s)
  let daily_averages := daily_data.map fun g => qsum g.2 / (g.2.length : ℚ)
  if daily_averages = [] then none
  else some (round1 (qsum daily_averages / (daily_averages.length : ℚ)))

/-! ### Recommendation view
(src/recommendations/views/recommendation.py) -/

/-- `_qual_temp`. -/
def _qual_temp (delta : ℚ) : String :=
  if 5 ≤ pyAbs delta then "significantly"
  else if 2 ≤ pyAbs delta then "moderately" else "slightly"

/-- `_qual_pm`. -/
def _qual_pm (delta : ℚ) : String :=
  if 20 ≤ pyAbs delta then "significantly"
  else if 10 ≤ pyAbs delta then "moderately" else "slightly"

/-- The outcome computed by `TravelRecommendationView.get` lines 70-114:
the verdict and reason that go into the response payload, plus the
internal `temp_diff` / `pm25_diff` variables (the response itself carries
the diffs only inside the reason text). -/
structure RecResult where
  recommendation : String
  reason : String
  temp_diff : Option ℚ
  pm25_diff : Option ℚ
  deriving DecidableEq, Repr

/-- The comparison logic of `TravelRecommendationView.get` (lines 70-114),
applied to the four 2 PM point lookups.  In the not-recommended branch the
source guards `temp_diff is not None and temp_diff > 0`; inside the
all-values-present block the diffs are never `None`, so only the sign
tests remain. -/
def recommend (cur_temp dest_temp cur_pm25 dest_pm25 : Option ℚ) : RecResult :=
  match cur_temp, dest_temp, cur_pm25, dest_pm25 with
  | some ct, some dt, some cp, some dp =>
      let temp_diff := round1 (dt - ct)
      let pm25_diff := round1 (dp - cp)
      let is_dest_cooler : Bool := decide (dt < ct)
      let has_better_air : Bool := decide (dp < cp)
      if is_dest_cooler && has_better_air then
        { recommendation := "Recommended"
          reason := "Your destination is " ++ fmt1abs (pyAbs temp_diff) ++ "°C " ++
            _qual_temp temp_diff ++ " cooler and has " ++ _qual_pm pm25_diff ++
            " better air quality. Enjoy your trip!"
          temp_diff := some temp_diff
          pm25_diff := some pm25_diff }
      else
        let parts : List String :=
          (if !is_dest_cooler then
            [if 0 < temp_diff then "hotter" else "the same temperature"] else []) ++
          (if !has_better_air then
            [if 0 < pm25_diff then "worse air quality" else "the same air quality"] else [])
        let joined := if parts = [] then "not better on temperature or air quality"
          else String.intercalate " and " parts
        { recommendation := "Not Recommended"
          reason := "Your destination is " ++ joined ++
            " than your current location. It’s better to stay where you are."
          temp_diff := some temp_diff
          pm25_diff := some pm25_diff }
  | _, _, _, _ =>
      { recommendation := "Not Recommended"
        reason := "Insufficient data to compare temperature or air quality."
        temp_diff := none
        pm25_diff := none }

/-! ### Query serializer
(src/recommendations/serializers/recommendation.py) -/

/-- `RecommendationQuerySerializer` coordinate bounds:
`FloatField(min_value=-90, max_value=90)` and
`FloatField(min_value=-180, max_value=180)` (inclusive). -/
def serializer_accepts_coords (lat lon : ℚ) : Bool :=
  decide (-90 ≤ lat) && decide (lat ≤ 90) && decide (-180 ≤ lon) && decide (lon ≤ 180)

/-! ### Concrete sample data used by witnesses and counterexamples -/

/-- A small concrete payload. -/
def samplePayload : Payload :=
  ⟨["2025-08-13T14:00"], [some 5]⟩

/-- A payload whose single reading is a JSON null. -/
def nullPayload : Payload :=
  ⟨["2025-08-13T14:00"], [none]⟩

/-- pm2.5 payload realizing the spec example day1:[10,20], day2:[30]. -/
def pm25Example : Payload :=
  ⟨["2025-08-13T10:00", "2025-08-13T11:00", "2025-08-14T10:00"],
    [some 10, some 20, some 30]⟩

/-- The same pm2.5 data plus a third date contributing only null readings. -/
def pm25NoneDay : Payload :=
  ⟨["2025-08-13T10:00", "2025-08-13T11:00", "2025-08-14T10:00",
    "2025-08-15T10:00", "2025-08-15T11:00"],
    [some 10, some 20, some 30, none, none]⟩

/-- Attempt outcomes whose first attempt is a 404 and later attempts succeed. -/
def firstAttempt404 : Nat → HttpOutcome :=
  fun i => if i = 1 then HttpOutcome.response 404 samplePayload
    else HttpOutcome.response 200 samplePayload

/-- Attempt outcomes that always return a 404 client error. -/
def always404 : Nat → HttpOutcome :=
  fun _ => HttpOutcome.response 404 samplePayload

/-- Attempt outcomes that always fail at the network level. -/
def alwaysNetError : Nat → HttpOutcome :=
  fun _ => HttpOutcome.netError

/-- A weather cache state holding a non-expired entry for coordinate (0,0). -/
def hitState : CacheState := [(wkey 0 0 7 "auto", samplePayload, 5)]

/-- An air-quality cache state holding a non-expired entry for (0,0). -/
def aHitState : CacheState := [(akey 0 0 7, samplePayload, 5)]

/-! ### Helper lemmas -/

/-- Arithmetic core of `roundHalfEven_eq_of_abs_sub_lt`, stated on the
pieces of the reduced fraction. -/
theorem roundHE_aux (x : ℚ) (k n d f r : ℤ) (hd : (0 : ℤ) < d)
    (hnum : (n : ℚ) = x * (d : ℚ)) (hsplit : n = d * f + r)
    (hr0 : 0 ≤ r) (hrd : r < d)
    (hl : x - (k : ℚ) < 1/2) (hr2 : (k : ℚ) - x < 1/2) :
    (if 2 * r = d then (if f % 2 = 0 then f else f + 1)
     else if 2 * r < d then f else f + 1) = k := by
  have hdQ : (0 : ℚ) < (d : ℚ) := by exact_mod_cast hd
  have hsplitQ : (n : ℚ) = (d : ℚ) * (f : ℚ) + (r : ℚ) := by exact_mod_cast hsplit
  have hr0Q : (0 : ℚ) ≤ (r : ℚ) := by exact_mod_cast hr0
  have hrdQ : (r : ℚ) < (d : ℚ) := by exact_mod_cast hrd
  have hmul1 : x * (d : ℚ) < ((k : ℚ) + 1/2) * (d : ℚ) :=
    mul_lt_mul_of_pos_right (by linarith) hdQ
  have hmul2 : ((k : ℚ) - 1/2) * (d : ℚ) < x * (d : ℚ) :=
    mul_lt_mul_of_pos_right (by linarith) hdQ
  by_cases htie : 2 * r = d
  · exfalso
    have h2rQ : 2 * (r : ℚ) = (d : ℚ) := by exact_mod_cast htie
    have hx2 : (x - (f : ℚ) - 1/2) * (d : ℚ) = 0 := by
      linear_combination (-1) * hnum + hsplitQ + h2rQ / 2
    rcases mul_eq_zero.mp hx2 with h0 | h0
    · have hxf : x = (f : ℚ) + 1/2 := by linarith
      have h1 : (f : ℚ) < (k : ℚ) := by rw [hxf] at hl; linarith
      have h2 : (k : ℚ) < (f : ℚ) + 1 := by rw [hxf] at hr2; linarith
      have h1Z : f < k := by exact_mod_cast h1
      have h2Z : k < f + 1 := by exact_mod_cast h2
      omega
    · exact absurd h0 (ne_of_gt hdQ)
  · rw [if_neg htie]
    by_cases hlt : 2 * r < d
    · rw [if_pos hlt]
      have hltQ : 2 * (r : ℚ) < (d : ℚ) := by exact_mod_cast hlt
      have hfd : (f : ℚ) * (d : ℚ) < ((k : ℚ) + 1/2) * (d : ℚ) := by nlinarith
      have hkd : ((k : ℚ) - 1/2) * (d : ℚ) < ((f : ℚ) + 1/2) * (d : ℚ) := by nlinarith
      have hfk : (f : ℚ) < (k : ℚ) + 1/2 := (mul_lt_mul_right hdQ).mp hfd
      have hkf : (k : ℚ) - 1/2 < (f : ℚ) + 1/2 := (mul_lt_mul_right hdQ).mp hkd
      have ha : 2 * f < 2 * k + 1 := by
        exact_mod_cast (by linarith : 2 * (f : ℚ) < 2 * (k : ℚ) + 1)
      have hb : 2 * k < 2 * f + 2 := by
        exact_mod_cast (by linarith : 2 * (k : ℚ) < 2 * (f : ℚ) + 2)
      omega
    · rw [if_neg hlt]
      have hgt : d < 2 * r := by omega
      have hgtQ : (d : ℚ) < 2 * (r : ℚ) := by exact_mod_cast hgt
      have hfd : ((f : ℚ) + 1/2) * (d : ℚ) < ((k : ℚ) + 1/2) * (d : ℚ) := by nlinarith
      have hkd : ((k : ℚ) - 1/2) * (d : ℚ) < ((f : ℚ) + 1) * (d : ℚ) := by nlinarith
      have hfk : (f : ℚ) + 1/2 < (k : ℚ) + 1/2 := (mul_lt_mul_right hdQ).mp hfd
      have hkf : (k : ℚ) - 1/2 < (f : ℚ) + 1 := (mul_lt_mul_right hdQ).mp hkd
      have ha : f < k := by exact_mod_cast (by linarith : (f : ℚ) < (k : ℚ))
      have hb : 2 * k < 2 * f + 3 := by
        exact_mod_cast (by linarith : 2 * (k : ℚ) < 2 * (f : ℚ) + 3)
      omega

/-- Half-even rounding agrees with the grid point when the argument lies
strictly within half a unit of it (no tie can occur there). -/
theorem roundHalfEven_eq_of_abs_sub_lt (x : ℚ) (k : ℤ) (h : |x - k| < 1/2) :
    roundHalfEven x = k := by
  obtain ⟨hl, hr⟩ := abs_sub_lt_iff.mp h
  have hdpos : (0 : ℤ) < (x.den : ℤ) := by exact_mod_cast x.pos
  have hd0 : ((x.den : ℚ)) ≠ 0 := Nat.cast_ne_zero.mpr x.pos.ne'
  have hnum : (x.num : ℚ) = x * ((x.den : ℤ) : ℚ) := by
    push_cast
    exact (div_eq_iff hd0).mp (Rat.num_div_den x)
  exact roundHE_aux x k x.num (x.den : ℤ) (x.num / (x.den : ℤ)) (x.num % (x.den : ℤ))
    hdpos hnum (Int.ediv_add_emod _ _).symm
    (Int.emod_nonneg _ (by omega)) (Int.emod_lt_of_pos _ hdpos) hl hr

/-- `round2` collapses to the grid point `k/100` on the open half-unit cell
around it. -/
theorem round2_eq_grid (x : ℚ) (k : ℤ) (h : |x * 100 - k| < 1/2) :
    round2 x = (k : ℚ) / 100 := by
  unfold round2
  rw [roundHalfEven_eq_of_abs_sub_lt (x * 100) k h]

/-- The retry loop never reports an attempt number below the one it starts at. -/
theorem retryGo_fst_ge (attempt : Nat → Except ReqError Payload) :
    ∀ (fuel i : Nat), i ≤ (retryGo attempt fuel i).1 := by
  intro fuel
  induction fuel with
  | zero => intro i; exact Nat.le_refl i
  | succ f ih =>
      intro i
      show i ≤ (match attempt i with
        | Except.ok a => (i, Except.ok a)
        | Except.error _ => retryGo attempt f (i + 1)).1
      cases attempt i with
      | ok a => exact Nat.le_refl i
      | error e => exact Nat.le_trans (Nat.le_succ i) (ih (i + 1))

/-- One failing attempt consumes one unit of fuel and moves to the next
attempt number. -/
theorem retryGo_step (attempt : Nat → Except ReqError Payload) (fuel i : Nat)
    (e : ReqError) (h : attempt i = Except.error e) :
    retryGo attempt (fuel + 1) i = retryGo attempt fuel (i + 1) := by
  have hm : retryGo attempt (fuel + 1) i =
      match attempt i with
      | Except.ok a => (i, Except.ok a)
      | Except.error _ => retryGo attempt fuel (i + 1) := rfl
  rw [hm, h]

/-- A weather fetch performs at most one outbound request. -/
theorem fetch_weather_count_le_one (st : CacheState) (now : Nat) (lat lon : ℚ)
    (fd : Nat) (tz : String) (net : Except ReqError Payload) :
    (fetch_weather st now lat lon fd tz net).2.2 ≤ 1 := by
  unfold fetch_weather
  cases cacheGet st now (wkey lat lon fd tz) <;> cases net <;> simp

/-- An air-quality fetch performs at most one outbound request. -/
theorem fetch_air_count_le_one (st : CacheState) (now : Nat) (lat lon : ℚ)
    (fd : Nat) (net : Except ReqError Payload) :
    (fetch_air_quality st now lat lon fd net).2.2 ≤ 1 := by
  unfold fetch_air_quality
  cases cacheGet st now (akey lat lon fd) <;> cases net <;> simp

/-- Reading back a key just stored: present exactly while now2 < now + ttl. -/
theorem cacheGet_set_self (st : CacheState) (now now2 : Nat) (key : String)
    (p : Payload) (ttl : Nat) :
    cacheGet (cacheSet st now key p ttl) now2 key =
      if now2 < now + ttl then some p else none := by
  simp [cacheGet, cacheSet, List.lookup]

/-- `addToGroup` only ever produces nonempty value lists. -/
theorem addToGroup_ne_nil (day : String) (v : ℚ) :
    ∀ (m : List (String × List ℚ)), (∀ g ∈ m, g.2 ≠ []) →
      ∀ g ∈ addToGroup m day v, g.2 ≠ [] := by
  intro m
  induction m with
  | nil =>
      intro _ g hg
      simp [addToGroup] at hg
      simp [hg]
  | cons hd tl ih =>
      intro hm g hg
      obtain ⟨d, vs⟩ := hd
      simp only [addToGroup] at hg
      split at hg
      · rcases List.mem_cons.mp hg with h | h
        · subst h; simp
        · exact hm _ (List.mem_cons_of_mem _ h)
      · rcases List.mem_cons.mp hg with h | h
        · subst h; exact hm _ (List.mem_cons_self _ _)
        · exact ih (fun g' hg' => hm g' (List.mem_cons_of_mem _ hg')) g h

/-- The grouping fold preserves nonemptiness of every group. -/
theorem daily_groups_go_ne_nil :
    ∀ (s : List (String × Option ℚ)) (acc : List (String × List ℚ)),
      (∀ g ∈ acc, g.2 ≠ []) → ∀ g ∈ s.foldl groupStep acc, g.2 ≠ [] := by
  intro s
  induction s with
  | nil => intro acc h; simpa using h
  | cons hd tl ih =>
      intro acc h
      simp only [List.foldl_cons]
      apply ih
      cases hv : hd.2 with
      | none => simpa [groupStep, hv] using h
      | some v =>
          simp only [groupStep, hv]
          exact addToGroup_ne_nil (dayOf hd.1) v acc h

/-- Every group `_daily_groups` produces holds at least one value. -/
theorem daily_groups_ne_nil (s : List (String × Option ℚ)) :
    ∀ g ∈ _daily_groups s, g.2 ≠ [] :=
  daily_groups_go_ne_nil s [] (by simp)

/-- Over nonempty groups, the guarded average collection equals the plain
mapped averages. -/
theorem filterMap_avg_eq_map :
    ∀ (gs : List (String × List ℚ)), (∀ g ∈ gs, g.2 ≠ []) →
      (gs.filterMap fun g =>
        if g.2 = [] then none else some (qsum g.2 / (g.2.length : ℚ))) =
        gs.map fun g => qsum g.2 / (g.2.length : ℚ) := by
  intro gs
  induction gs with
  | nil => intro _; rfl
  | cons hd tl ih =>
      intro h
      have h1 : hd.2 ≠ [] := h hd (List.mem_cons_self _ _)
      simp only [List.filterMap_cons, List.map_cons, if_neg h1]
      rw [ih (fun g hg => h g (List.mem_cons_of_mem _ hg))]

/-! ### Claim theorems -/

/-- C1: when all four 2 PM point lookups return values, the verdict is
"Recommended" exactly when the destination is strictly cooler and has
strictly lower pm2.5, and "Not Recommended" otherwise; the spec scenario
current (30, 40) vs destination (25, 20) yields "Recommended" with
temp_diff = -5.0 classified "significantly" and pm25_diff = -20.0
classified "significantly". -/
theorem c1_recommendation_rule :
    (∀ ct dt cp dp : ℚ,
      (recommend (some ct) (some dt) (some cp) (some dp)).recommendation =
        if dt < ct ∧ dp < cp then "Recommended" else "Not Recommended") ∧
    (recommend (some 30) (some 25) (some 40) (some 20)).recommendation = "Recommended" ∧
    (recommend (some 30) (some 25) (some 40) (some 20)).temp_diff = some (-5) ∧
    (recommend (some 30) (some 25) (some 40) (some 20)).pm25_diff = some (-20) ∧
    _qual_temp (-5) = "significantly" ∧ _qual_pm (-20) = "significantly" := by
  refine ⟨?_, by with_unfolding_all decide, by with_unfolding_all decide,
    by with_unfolding_all decide, by with_unfolding_all decide, by with_unfolding_all decide⟩
  intro ct dt cp dp
  by_cases h1 : dt < ct <;> by_cases h2 : dp < cp <;>
    simp [recommend, h1, h2]

/-- C2: when at least one of the four 2 PM values is None (and no fetch
failed, so the comparison block runs), the result keeps the defaults:
verdict "Not Recommended", the insufficient-data reason, and both
differentials left as None. -/
theorem c2_insufficient_data :
    ∀ ct dt cp dp : Option ℚ,
      (ct = none ∨ dt = none ∨ cp = none ∨ dp = none) →
      recommend ct dt cp dp =
        { recommendation := "Not Recommended"
          reason := "Insufficient data to compare temperature or air quality."
          temp_diff := none
          pm25_diff := none } := by
  intro ct dt cp dp h
  cases ct <;> cases dt <;> cases cp <;> cases dp <;>
    first
      | rfl
      | (rcases h with h | h | h | h <;> exact Option.noConfusion h)

/-- C2 witness at a concrete missing current temperature. -/
theorem c2_insufficient_data_witness :
    recommend none (some 25) (some 40) (some 20) =
      { recommendation := "Not Recommended"
        reason := "Insufficient data to compare temperature or air quality."
        temp_diff := none
        pm25_diff := none } :=
  c2_insufficient_data none (some 25) (some 40) (some 20) (Or.inl rfl)

/-- C3 counterexample: with a 404 (4xx-class) response on the first attempt
and a success on the second, the fetcher makes a second attempt and
returns its result — so a permanent client error is retried, not raised
immediately (the claim would require the attempt count to be 1). -/
theorem c3_counterexample :
    fetchWithRetry firstAttempt404 = (2, Except.ok samplePayload) ∧
    (fetchWithRetry firstAttempt404).1 ≠ 1 := by
  exact ⟨rfl, by decide⟩

/-- C3 amended: the retry policy carries no exception filter, and
`raise_for_status` raises for 4xx as well; hence any 4xx-class response on
the first attempt leads to at least a second attempt instead of raising
immediately. -/
theorem c3_amended_retries_4xx (outcomes : Nat → HttpOutcome) (status : Nat)
    (body : Payload) (h4 : 400 ≤ status) (_h5 : status ≤ 499)
    (h1 : outcomes 1 = HttpOutcome.response status body) :
    2 ≤ (fetchWithRetry outcomes).1 := by
  have ha : httpAttempt (outcomes 1) = Except.error (ReqError.httpError status) := by
    rw [h1]
    show (if 400 ≤ status then Except.error (ReqError.httpError status)
        else Except.ok body) = Except.error (ReqError.httpError status)
    rw [if_pos h4]
  show 2 ≤ (retryGo (fun i => httpAttempt (outcomes i)) 2 1).1
  rw [retryGo_step (fun i => httpAttempt (outcomes i)) 1 1 (ReqError.httpError status) ha]
  exact retryGo_fst_ge _ 1 2

/-- C3 amended witness: all attempts return 404; the second attempt is made. -/
theorem c3_amended_witness : 2 ≤ (fetchWithRetry always404).1 :=
  c3_amended_retries_4xx always404 404 samplePayload (by decide) (by decide) rfl

/-- C4: when every attempt raises (in the code all raised exceptions are
treated alike, so in particular when all fail transiently), the fetcher
makes exactly 3 attempts and the final failure — tenacity's `RetryError`,
the spec's transient FetchError — carries the last attempt's underlying
error. -/
theorem c4_exhausts_three_attempts (outcomes : Nat → HttpOutcome)
    (e1 e2 e3 : ReqError)
    (h1 : httpAttempt (outcomes 1) = Except.error e1)
    (h2 : httpAttempt (outcomes 2) = Except.error e2)
    (h3 : httpAttempt (outcomes 3) = Except.error e3) :
    fetchWithRetry outcomes = (3, Except.error e3) := by
  show retryGo (fun i => httpAttempt (outcomes i)) 2 1 = (3, Except.error e3)
  rw [retryGo_step (fun i => httpAttempt (outcomes i)) 1 1 e1 h1,
    retryGo_step (fun i => httpAttempt (outcomes i)) 0 2 e2 h2]
  show ((3 : Nat), httpAttempt (outcomes 3)) = (3, Except.error e3)
  rw [h3]

/-- C4 witness: three consecutive network failures give 3 attempts and the
last connection error. -/
theorem c4_exhausts_three_attempts_witness :
    fetchWithRetry alwaysNetError = (3, Except.error ReqError.connectionError) :=
  c4_exhausts_three_attempts alwaysNetError ReqError.connectionError
    ReqError.connectionError ReqError.connectionError rfl rfl rfl

/-- C5: for the computed cache key, (i) a non-expired entry is returned
with no outbound request; (ii) two successive calls whose first populate
succeeds, the second within the TTL window, perform at most one outbound
request in total; (iii) once the TTL of a stored entry has elapsed, a call
performs an outbound request again — for both `fetch_weather` and
`fetch_air_quality`. -/
theorem c5_ttl_cache :
    (∀ (st : CacheState) (now : Nat) (lat lon : ℚ) (fd : Nat) (tz : String)
        (net : Except ReqError Payload) (p : Payload),
      cacheGet st now (wkey lat lon fd tz) = some p →
      fetch_weather st now lat lon fd tz net = (Except.ok p, st, 0)) ∧
    (∀ (st : CacheState) (now1 now2 : Nat) (lat lon : ℚ) (fd : Nat) (tz : String)
        (d : Payload) (net2 : Except ReqError Payload),
      now2 < now1 + WEATHER_CACHE_TTL →
      (fetch_weather st now1 lat lon fd tz (Except.ok d)).2.2 +
        (fetch_weather (fetch_weather st now1 lat lon fd tz (Except.ok d)).2.1
          now2 lat lon fd tz net2).2.2 ≤ 1) ∧
    (∀ (st : CacheState) (now1 now2 : Nat) (lat lon : ℚ) (fd : Nat) (tz : String)
        (d : Payload) (net2 : Except ReqError Payload),
      cacheGet st now1 (wkey lat lon fd tz) = none →
      now1 + WEATHER_CACHE_TTL ≤ now2 →
      (fetch_weather (fetch_weather st now1 lat lon fd tz (Except.ok d)).2.1
        now2 lat lon fd tz net2).2.2 = 1) ∧
    (∀ (st : CacheState) (now : Nat) (lat lon : ℚ) (fd : Nat)
        (net : Except ReqError Payload) (p : Payload),
      cacheGet st now (akey lat lon fd) = some p →
      fetch_air_quality st now lat lon fd net = (Except.ok p, st, 0)) ∧
    (∀ (st : CacheState) (now1 now2 : Nat) (lat lon : ℚ) (fd : Nat)
        (d : Payload) (net2 : Except ReqError Payload),
      now2 < now1 + AIR_QUALITY_CACHE_TTL →
      (fetch_air_quality st now1 lat lon fd (Except.ok d)).2.2 +
        (fetch_air_quality (fetch_air_quality st now1 lat lon fd (Except.ok d)).2.1
          now2 lat lon fd net2).2.2 ≤ 1) ∧
    (∀ (st : CacheState) (now1 now2 : Nat) (lat lon : ℚ) (fd : Nat)
        (d : Payload) (net2 : Except ReqError Payload),
      cacheGet st now1 (akey lat lon fd) = none →
      now1 + AIR_QUALITY_CACHE_TTL ≤ now2 →
      (fetch_air_quality (fetch_air_quality st now1 lat lon fd (Except.ok d)).2.1
        now2 lat lon fd net2).2.2 = 1) := by
  refine ⟨?_, ?_, ?_, ?_, ?_, ?_⟩
  · intro st now lat lon fd tz net p h
    unfold fetch_weather
    rw [h]
  · intro st now1 now2 lat lon fd tz d net2 h
    cases hc : cacheGet st now1 (wkey lat lon fd tz) with
    | some p =>
        have h1 : fetch_weather st now1 lat lon fd tz (Except.ok d) =
            (Except.ok p, st, 0) := by unfold fetch_weather; rw [hc]
        rw [h1]
        show 0 + (fetch_weather st now2 lat lon fd tz net2).2.2 ≤ 1
        have hle := fetch_weather_count_le_one st now2 lat lon fd tz net2
        omega
    | none =>
        have h1 : fetch_weather st now1 lat lon fd tz (Except.ok d) =
            (Except.ok d,
              cacheSet st now1 (wkey lat lon fd tz) d WEATHER_CACHE_TTL, 1) := by
          unfold fetch_weather; rw [hc]
        rw [h1]
        have h2 : cacheGet (cacheSet st now1 (wkey lat lon fd tz) d WEATHER_CACHE_TTL)
            now2 (wkey lat lon fd tz) = some d := by
          rw [cacheGet_set_self]; exact if_pos h
        have h3 : fetch_weather
            (cacheSet st now1 (wkey lat lon fd tz) d WEATHER_CACHE_TTL)
            now2 lat lon fd tz net2 =
            (Except.ok d,
              cacheSet st now1 (wkey lat lon fd tz) d WEATHER_CACHE_TTL, 0) := by
          unfold fetch_weather; rw [h2]
        show 1 + (fetch_weather
            (cacheSet st now1 (wkey lat lon fd tz) d WEATHER_CACHE_TTL)
            now2 lat lon fd tz net2).2.2 ≤ 1
        rw [h3]
        exact Nat.le_refl 1
  · intro st now1 now2 lat lon fd tz d net2 hc h
    have h1 : fetch_weather st now1 lat lon fd tz (Except.ok d) =
        (Except.ok d,
          cacheSet st now1 (wkey lat lon fd tz) d WEATHER_CACHE_TTL, 1) := by
      unfold fetch_weather; rw [hc]
    rw [h1]
    have h2 : cacheGet (cacheSet st now1 (wkey lat lon fd tz) d WEATHER_CACHE_TTL)
        now2 (wkey lat lon fd tz) = none := by
      rw [cacheGet_set_self]; exact if_neg (Nat.not_lt.mpr h)
    show (fetch_weather
        (cacheSet st now1 (wkey lat lon fd tz) d WEATHER_CACHE_TTL)
        now2 lat lon fd tz net2).2.2 = 1
    unfold fetch_weather
    rw [h2]
    cases net2 <;> rfl
  · intro st now lat lon fd net p h
    unfold fetch_air_quality
    rw [h]
  · intro st now1 now2 lat lon fd d net2 h
    cases hc : cacheGet st now1 (akey lat lon fd) with
    | some p =>
        have h1 : fetch_air_quality st now1 lat lon fd (Except.ok d) =
            (Except.ok p, st, 0) := by unfold fetch_air_quality; rw [hc]
        rw [h1]
        show 0 + (fetch_air_quality st now2 lat lon fd net2).2.2 ≤ 1
        have hle := fetch_air_count_le_one st now2 lat lon fd net2
        omega
    | none =>
        have h1 : fetch_air_quality st now1 lat lon fd (Except.ok d) =
            (Except.ok d,
              cacheSet st now1 (akey lat lon fd) d AIR_QUALITY_CACHE_TTL, 1) := by
          unfold fetch_air_quality; rw [hc]
        rw [h1]
        have h2 : cacheGet (cacheSet st now1 (akey lat lon fd) d AIR_QUALITY_CACHE_TTL)
            now2 (akey lat lon fd) = some d := by
          rw [cacheGet_set_self]; exact if_pos h
        have h3 : fetch_air_quality
            (cacheSet st now1 (akey lat lon fd) d AIR_QUALITY_CACHE_TTL)
            now2 lat lon fd net2 =
            (Except.ok d,
              cacheSet st now1 (akey lat lon fd) d AIR_QUALITY_CACHE_TTL, 0) := by
          unfold fetch_air_quality; rw [h2]
        show 1 + (fetch_air_quality
            (cacheSet st now1 (akey lat lon fd) d AIR_QUALITY_CACHE_TTL)
            now2 lat lon fd net2).2.2 ≤ 1
        rw [h3]
        exact Nat.le_refl 1
  · intro st now1 now2 lat lon fd d net2 hc h
    have h1 : fetch_air_quality st now1 lat lon fd (Except.ok d) =
        (Except.ok d,
          cacheSet st now1 (akey lat lon fd) d AIR_QUALITY_CACHE_TTL, 1) := by
      unfold fetch_air_quality; rw [hc]
    rw [h1]
    have h2 : cacheGet (cacheSet st now1 (akey lat lon fd) d AIR_QUALITY_CACHE_TTL)
        now2 (akey lat lon fd) = none := by
      rw [cacheGet_set_self]; exact if_neg (Nat.not_lt.mpr h)
    show (fetch_air_quality
        (cacheSet st now1 (akey lat lon fd) d AIR_QUALITY_CACHE_TTL)
        now2 lat lon fd net2).2.2 = 1
    unfold fetch_air_quality
    rw [h2]
    cases net2 <;> rfl

/-- C5 witness: concrete cache hit, back-to-back calls inside the TTL, and
a call after expiry, for both fetch functions. -/
theorem c5_ttl_cache_witness :
    fetch_weather hitState 0 0 0 7 "auto" (Except.error ReqError.connectionError) =
      (Except.ok samplePayload, hitState, 0) ∧
    (fetch_weather [] 0 0 0 7 "auto" (Except.ok samplePayload)).2.2 +
      (fetch_weather (fetch_weather [] 0 0 0 7 "auto" (Except.ok samplePayload)).2.1
        100 0 0 7 "auto" (Except.ok samplePayload)).2.2 ≤ 1 ∧
    (fetch_weather (fetch_weather [] 0 0 0 7 "auto" (Except.ok samplePayload)).2.1
      1800 0 0 7 "auto" (Except.ok samplePayload)).2.2 = 1 ∧
    fetch_air_quality aHitState 0 0 0 7 (Except.error ReqError.connectionError) =
      (Except.ok samplePayload, aHitState, 0) ∧
    (fetch_air_quality [] 0 0 0 7 (Except.ok samplePayload)).2.2 +
      (fetch_air_quality (fetch_air_quality [] 0 0 0 7 (Except.ok samplePayload)).2.1
        100 0 0 7 (Except.ok samplePayload)).2.2 ≤ 1 ∧
    (fetch_air_quality (fetch_air_quality [] 0 0 0 7 (Except.ok samplePayload)).2.1
      1800 0 0 7 (Except.ok samplePayload)).2.2 = 1 :=
  ⟨c5_ttl_cache.1 hitState 0 0 0 7 "auto" _ samplePayload (by with_unfolding_all decide),
   c5_ttl_cache.2.1 [] 0 100 0 0 7 "auto" samplePayload _ (by decide),
   c5_ttl_cache.2.2.1 [] 0 1800 0 0 7 "auto" samplePayload _ rfl (by decide),
   c5_ttl_cache.2.2.2.1 aHitState 0 0 0 7 _ samplePayload (by with_unfolding_all decide),
   c5_ttl_cache.2.2.2.2.1 [] 0 100 0 0 7 samplePayload _ (by decide),
   c5_ttl_cache.2.2.2.2.2 [] 0 1800 0 0 7 samplePayload _ rfl (by decide)⟩

/-- C6: the weekly pm2.5 aggregate is the rounded mean of per-date means of
the valid readings — identically in the service module and the legacy
utils module; on day1:[10,20], day2:[30] it yields 22.5, which differs
from the flat mean 20, and a date contributing only null readings changes
nothing. -/
theorem c6_daily_then_weekly_mean :
    (∀ (times : List String) (pm25s : List (Option ℚ)),
      utils_air_quality_agg times pm25s = weekly_avg_pm25 ⟨times, pm25s⟩) ∧
    weekly_avg_pm25 pm25Example = some (45/2) ∧
    ((45 : ℚ)/2 ≠ (10 + 20 + 30)/3) ∧
    weekly_avg_pm25 pm25NoneDay = weekly_avg_pm25 pm25Example := by
  refine ⟨?_, by with_unfolding_all decide, by with_unfolding_all decide,
    by with_unfolding_all decide⟩
  intro times pm25s
  have hne : ∀ g ∈ _daily_groups (times.zip pm25s), g.2 ≠ [] :=
    daily_groups_ne_nil (times.zip pm25s)
  simp only [utils_air_quality_agg, weekly_avg_pm25, _avg, _hourly_series]
  rw [filterMap_avg_eq_map _ hne]

/-- C7: the claimed invariant fails in the legacy module: the 2 PM
temperature aggregate of `utils.fetch_weather` does NOT exclude missing
values — on a payload whose only 2 PM reading is null it raises
`TypeError` at the summation, while the service-module aggregate excludes
the null and returns no-data; the three other aggregates do exclude
missing values and every aggregate over zero contributing points is None,
never zero. -/
theorem c7_missing_value_eval :
    utils_weather_agg nullPayload.times nullPayload.values =
      Except.error PyError.typeError ∧
    weekly_avg_temperature_at_2pm nullPayload = none ∧
    utils_air_quality_agg nullPayload.times nullPayload.values = none ∧
    weekly_avg_pm25 nullPayload = none ∧
    _avg [] = none ∧
    utils_weather_agg [] [] = Except.ok none := by
  refine ⟨by with_unfolding_all rfl, by with_unfolding_all rfl, by with_unfolding_all rfl,
    by with_unfolding_all rfl, by with_unfolding_all rfl, by with_unfolding_all rfl⟩

/-- C8 counterexample: 10.004 and 10.006 differ by 0.002 ≤ 0.005 on each
axis, yet they normalize to different 2-decimal coordinates (10.00 vs
10.01) and therefore to different cache keys. -/
theorem c8_counterexample :
    |(10.004 : ℚ) - 10.006| ≤ 1/200 ∧ |(20 : ℚ) - 20| ≤ 1/200 ∧
    _norm_coords 10.004 20 ≠ _norm_coords 10.006 20 ∧
    wkey 10.004 20 7 "auto" ≠ wkey 10.006 20 7 "auto" := by
  refine ⟨?_, ?_, by with_unfolding_all decide, by with_unfolding_all decide⟩
  · rw [abs_le]; constructor <;> norm_num
  · rw [abs_le]; constructor <;> norm_num

/-- C8 amended: coordinates produce the same cache key when each axis
rounds to the same 2-decimal grid value — in particular whenever both
latitudes lie strictly within 0.005° of a common grid point k/100 and both
longitudes strictly within 0.005° of a common m/100; merely being within
±0.005° of each other can straddle a rounding boundary. -/
theorem c8_same_grid_same_key (lat1 lon1 lat2 lon2 : ℚ) (k m : ℤ)
    (hk1 : |lat1 * 100 - k| < 1/2) (hk2 : |lat2 * 100 - k| < 1/2)
    (hm1 : |lon1 * 100 - m| < 1/2) (hm2 : |lon2 * 100 - m| < 1/2) :
    _norm_coords lat1 lon1 = _norm_coords lat2 lon2 ∧
    ∀ (pre extra : String),
      _cache_key pre lat1 lon1 extra = _cache_key pre lat2 lon2 extra := by
  have hn : _norm_coords lat1 lon1 = _norm_coords lat2 lon2 := by
    unfold _norm_coords
    rw [round2_eq_grid lat1 k hk1, round2_eq_grid lat2 k hk2,
      round2_eq_grid lon1 m hm1, round2_eq_grid lon2 m hm2]
  exact ⟨hn, fun pre extra => by unfold _cache_key; rw [hn]⟩

/-- C8 amended witness: 10.003 and 10.004 share the grid point 10.00, and
20 and 19.999 share 20.00, so the keys agree. -/
theorem c8_same_grid_same_key_witness :
    _cache_key "openmeteo:weather" 10.003 20 "fd=7|tz=auto" =
      _cache_key "openmeteo:weather" 10.004 19.999 "fd=7|tz=auto" :=
  (c8_same_grid_same_key 10.003 20 10.004 19.999 1000 2000
    (by rw [abs_lt]; constructor <;> norm_num)
    (by rw [abs_lt]; constructor <;> norm_num)
    (by rw [abs_lt]; constructor <;> norm_num)
    (by rw [abs_lt]; constructor <;> norm_num)).2 "openmeteo:weather" "fd=7|tz=auto"

/-- C9 counterexample: invoked directly with latitude 200 and longitude 300
(both out of range), the core weather fetch performs the outbound request
and returns the payload — it does not fail with a validation error; range
checking lives only in the HTTP-layer query serializer. -/
theorem c9_counterexample :
    serializer_accepts_coords 200 300 = false ∧
    fetch_weather [] 0 200 300 7 "auto" (Except.ok samplePayload) =
      (Except.ok samplePayload,
        [(wkey 200 300 7 "auto", samplePayload, WEATHER_CACHE_TTL)], 1) :=
  ⟨by with_unfolding_all rfl, by with_unfolding_all rfl⟩

/-- C9 amended: coordinate range validation happens only in
`RecommendationQuerySerializer` (inclusive bounds ±90 / ±180); the core
fetch functions perform no coordinate validation — whether they issue the
outbound request depends only on the cache, never on the coordinate
ranges. -/
theorem c9_validation_only_in_serializer :
    (∀ lat lon : ℚ, serializer_accepts_coords lat lon = true ↔
      (-90 ≤ lat ∧ lat ≤ 90 ∧ -180 ≤ lon ∧ lon ≤ 180)) ∧
    (∀ (st : CacheState) (now : Nat) (lat lon : ℚ) (fd : Nat) (tz : String)
        (net : Except ReqError Payload),
      (fetch_weather st now lat lon fd tz net).2.2 =
        if (cacheGet st now (wkey lat lon fd tz)).isSome then 0 else 1) ∧
    (∀ (st : CacheState) (now : Nat) (lat lon : ℚ) (fd : Nat)
        (net : Except ReqError Payload),
      (fetch_air_quality st now lat lon fd net).2.2 =
        if (cacheGet st now (akey lat lon fd)).isSome then 0 else 1) := by
  refine ⟨?_, ?_, ?_⟩
  · intro lat lon
    simp [serializer_accepts_coords, and_assoc]
  · intro st now lat lon fd tz net
    unfold fetch_weather
    cases cacheGet st now (wkey lat lon fd tz) <;> cases net <;> simp
  · intro st now lat lon fd net
    unfold fetch_air_quality
    cases cacheGet st now (akey lat lon fd) <;> cases net <;> simp

/-- C10: the point lookup returns None both when the composed date+hour
timestamp is absent from the series and when it is present with a null
recorded value; both cases yield the same `none` of type `Option ℚ` (no
error channel exists), so the caller cannot tell them apart. -/
theorem c10_point_lookup_none :
    (∀ (p : Payload) (d : String) (hour : Nat),
      List.lookup (needleFor d hour) (_hourly_series p).reverse = none →
      value_on_date_at_hour p d hour = none) ∧
    (∀ (p : Payload) (d : String) (hour : Nat),
      List.lookup (needleFor d hour) (_hourly_series p).reverse = some none →
      value_on_date_at_hour p d hour = none) := by
  constructor <;>
    · intro p d hour h
      unfold value_on_date_at_hour hourly_map
      rw [h]

/-- C10 witness: a date outside the sample window, and a timestamp stored
with a null reading, both give None. -/
theorem c10_point_lookup_none_witness :
    value_on_date_at_hour samplePayload "2025-08-14" 14 = none ∧
    value_on_date_at_hour nullPayload "2025-08-13" 14 = none :=
  ⟨c10_point_lookup_none.1 samplePayload "2025-08-14" 14 (by decide),
   c10_point_lookup_none.2 nullPayload "2025-08-13" 14 (by decide)⟩

end TravelAdviser
